import Mathlib

/-!
Verification of the session/authentication subsystem of the AOJ-cli Go
repository, by shallow embedding.

Conventions of the embedding:
* Go strings are `List Char` (`Str`); helper `str` converts literals.
* Go `time.Time` and `time.Duration` become `Int` (Unix epoch seconds);
  every call of `time.Now()` in the source becomes an explicit `now`
  parameter.
* Fallible Go functions return `Except Err α`; `Err` mirrors the
  `pkg/cerrors` package: an `AppError` carries an `ErrorCode`, and
  `cerrors.Wrap` preserves the code of the wrapped error (as Go
  `errors.As` walks the chain).
* Filesystem state is the `FS` structure: the contents of the
  `sessions/` directory plus the `current_session` pointer file.
  I/O faults that the source explicitly handles (chmod failing,
  os.Remove failing, ReadDir failing, creating/writing a file failing)
  are fault-injection fields of `FS`; an operation consults them where
  the corresponding Go call can fail.
* The remote AOJ service is an oracle value (`RemoteOutcome`), and the
  random session-id generator is an explicit `SessionID` parameter.
-/

set_option autoImplicit false

namespace AOJ

/-- Go strings, modelled character by character. -/
abbrev Str := List Char

/-- Convert a Lean string literal to the embedding's string type. -/
def str (s : String) : Str := s.toList

/-! ## pkg/cerrors -/

/-- `cerrors.ErrorCode`: the fixed error-kind taxonomy. -/
inductive ErrorCode where
  | notFound
  | invalidInput
  | unauthorized
  | forbidden
  | conflict
  | internalServer
  | serviceUnavailable
  | timeout
  | networkError
deriving DecidableEq, Repr

/-- Errors: `cerrors.AppError` values (with or without a wrapped inner
error) together with plain errors and `cerrors.Wrap` chains. -/
inductive Err where
  /-- a plain error with no `AppError` in its chain -/
  | plain (msg : String)
  /-- `cerrors.NewAppError(code, msg, nil)` -/
  | app (code : ErrorCode) (msg : String)
  /-- `cerrors.NewAppError(code, msg, err)` with a non-nil inner error -/
  | appWith (code : ErrorCode) (msg : String) (inner : Err)
  /-- `cerrors.Wrap(err, msg)` -/
  | wrap (msg : String) (inner : Err)
deriving DecidableEq, Repr

/-- `cerrors.GetErrorCode` / `errors.As`: the code of the first
`AppError` in the chain, if any.  `cerrors.Wrap` keeps the chain
intact, so wrapping preserves the code. -/
def Err.code : Err → Option ErrorCode
  | .plain _ => none
  | .app c _ => some c
  | .appWith c _ _ => some c
  | .wrap _ inner => inner.code

/-- `cerrors.IsAppError(err, code)`. -/
def IsAppError (e : Err) (c : ErrorCode) : Bool :=
  e.code = some c

/-! ## internal/domain/model/session_id.go -/

/-- `unicode.IsSpace`, as used by Go `strings.TrimSpace`. -/
def goIsSpace (c : Char) : Bool :=
  c.toNat = 0x09 || c.toNat = 0x0A || c.toNat = 0x0B || c.toNat = 0x0C ||
  c.toNat = 0x0D || c.toNat = 0x20 || c.toNat = 0x85 || c.toNat = 0xA0 ||
  c.toNat = 0x1680 || (0x2000 ≤ c.toNat && c.toNat ≤ 0x200A) ||
  c.toNat = 0x2028 || c.toNat = 0x2029 || c.toNat = 0x202F ||
  c.toNat = 0x205F || c.toNat = 0x3000

/-- Go `strings.TrimSpace`: drop leading and trailing whitespace. -/
def trimSpace (s : Str) : Str :=
  ((s.dropWhile goIsSpace).reverse.dropWhile goIsSpace).reverse

/-- Membership in the character class `[a-fA-F0-9]`. -/
def isHexChar (c : Char) : Bool :=
  (0x30 ≤ c.toNat && c.toNat ≤ 0x39) ||
  (0x61 ≤ c.toNat && c.toNat ≤ 0x66) ||
  (0x41 ≤ c.toNat && c.toNat ≤ 0x46)

/-- `isValidSessionIDFormat`: the regular expression
`^[a-fA-F0-9]{32,128}$`. -/
def isValidSessionIDFormat (s : Str) : Bool :=
  32 ≤ s.length && s.length ≤ 128 && s.all isHexChar

/-- `model.SessionID`: value object holding the validated string. -/
structure SessionID where
  value : Str
deriving DecidableEq, Repr

/-- `model.NewSessionID`. -/
def NewSessionID (value : Str) : Except Err SessionID :=
  if value = [] then
    .error (.app .invalidInput "session ID cannot be empty")
  else
    let normalized := trimSpace value
    if isValidSessionIDFormat normalized then
      .ok ⟨normalized⟩
    else
      .error (.app .invalidInput "invalid session ID format")

/-- `SessionID.IsValid`. -/
def SessionID.IsValid (s : SessionID) : Bool :=
  s.value ≠ [] && isValidSessionIDFormat s.value

/-! ## internal/domain/entity/session.go -/

/-- `entity.Session`.  Timestamps are Unix-epoch seconds. -/
structure Session where
  id : SessionID
  username : Str
  token : Str
  expiresAt : Int
  createdAt : Int
  lastUsed : Int
deriving DecidableEq, Repr

/-- `entity.NewSession` (createdAt and lastUsed are `time.Now()`). -/
def NewSession (now : Int) (id : SessionID) (username token : Str)
    (expiresAt : Int) : Session :=
  { id := id, username := username, token := token,
    expiresAt := expiresAt, createdAt := now, lastUsed := now }

/-- `entity.NewSessionWithDuration`. -/
def NewSessionWithDuration (now : Int) (id : SessionID)
    (username token : Str) (duration : Int) : Session :=
  { id := id, username := username, token := token,
    expiresAt := now + duration, createdAt := now, lastUsed := now }

/-- `Session.IsExpired`: `time.Now().After(expiresAt)` (strict). -/
def Session.IsExpired (now : Int) (s : Session) : Bool :=
  s.expiresAt < now

/-- `Session.IsValid`. -/
def Session.IsValidAt (now : Int) (s : Session) : Bool :=
  s.id.IsValid && s.username ≠ [] && s.token ≠ [] && !(s.IsExpired now)

/-- `Session.UpdateLastUsedAt`. -/
def Session.UpdateLastUsedAt (s : Session) (t : Int) : Session :=
  { s with lastUsed := t }

/-- `Session.RefreshFromNow`: extend from the current expiry, or from
now when already past expiry; bumps `lastUsed` (`UpdateLastUsed`). -/
def Session.RefreshFromNow (now : Int) (s : Session) (duration : Int) :
    Session :=
  if s.expiresAt < now then
    { s with expiresAt := now + duration, lastUsed := now }
  else
    { s with expiresAt := s.expiresAt + duration, lastUsed := now }

/-! ## internal/infrastructure/repository/local_session_repository.go -/

/-- `SessionData`: the flat JSON record persisted for a session. -/
structure SessionData where
  id : Str
  username : Str
  token : Str
  expiresAt : Int
  createdAt : Int
  lastUsed : Int
deriving DecidableEq, Repr

/-- Contents of a file in the `sessions/` directory: either a
JSON-encoded `SessionData` record, or bytes that fail to decode as
one. -/
inductive FileContent where
  | sessionData (d : SessionData)
  | undecodable (raw : Str)
deriving DecidableEq, Repr

/-- A file in the `sessions/` directory: name, content, mode. -/
abbrev FileEntry := Str × FileContent × Nat

/-- The filesystem state the repository touches: the `sessions/`
directory and the `current_session` pointer file, plus fault-injection
fields for the I/O failures the source explicitly handles. -/
structure FS where
  /-- files of the `sessions/` directory (names are unique) -/
  files : List FileEntry
  /-- content of the `current_session` file, if it exists -/
  current : Option Str
  /-- mode `os.Create` gives a newly created file (0666 less umask) -/
  createMode : Nat
  /-- names for which `os.Create` fails -/
  createFail : List Str
  /-- names for which `os.Chmod` fails -/
  chmodFail : List Str
  /-- names for which `os.Remove` fails with a non-NotExist error -/
  removeFail : List Str
  /-- whether `os.ReadDir` on the sessions directory fails -/
  readDirFail : Bool
  /-- whether `os.WriteFile` on the pointer file fails -/
  writeCurrentFail : Bool
deriving DecidableEq, Repr

/-- Look a file up by name. -/
def lookupFile : List FileEntry → Str → Option (FileContent × Nat)
  | [], _ => none
  | e :: rest, name => if e.1 = name then some e.2 else lookupFile rest name

/-- Write a file: overwrite in place, or append a new entry. -/
def setFile : List FileEntry → Str → FileContent → Nat → List FileEntry
  | [], name, c, m => [(name, c, m)]
  | e :: rest, name, c, m =>
    if e.1 = name then (name, c, m) :: rest else e :: setFile rest name c m

/-- The `SessionData` written by `Save` (`Unix()` on each timestamp). -/
def sessionToData (s : Session) : SessionData :=
  { id := s.id.value, username := s.username, token := s.token,
    expiresAt := s.expiresAt, createdAt := s.createdAt,
    lastUsed := s.lastUsed }

/-- `dataToSession`: rebuilds the entity via `entity.NewSession` (which
stamps `createdAt`/`lastUsed` with `time.Now()`), then restores
`lastUsed` with `UpdateLastUsedAt`.  The stored `createdAt` field is
not restored. -/
def dataToSession (now : Int) (d : SessionData) : Except Err Session :=
  match NewSessionID d.id with
  | .error e => .error e
  | .ok sid =>
    let s := NewSession now sid d.username d.token d.expiresAt
    .ok (s.UpdateLastUsedAt d.lastUsed)

/-- `LocalSessionRepository.Save`: serialize, `os.Create` the file
keyed by the id (a create failure is returned wrapped; creating
truncates an existing file without changing its mode, and gives a new
file the default create mode), then `os.Chmod` it to 0600 — a chmod
failure is only logged and `Save` still succeeds. -/
def Save (fs : FS) (s : Session) : Except Err FS :=
  if s.id.value ∈ fs.createFail then
    .error (.wrap "failed to create session file" (.plain "create error"))
  else
    let data := sessionToData s
    let createdMode :=
      match lookupFile fs.files s.id.value with
      | some (_, m) => m
      | none => fs.createMode
    let files1 := setFile fs.files s.id.value (.sessionData data) createdMode
    if s.id.value ∈ fs.chmodFail then
      .ok { fs with files := files1 }
    else
      .ok { fs with files := setFile files1 s.id.value (.sessionData data) 0o600 }

/-- `LocalSessionRepository.GetByID`: NotFound if the file is absent,
a wrapped decode error if the content does not decode, else
`dataToSession` (whose failure is wrapped). -/
def GetByID (now : Int) (fs : FS) (id : SessionID) : Except Err Session :=
  match lookupFile fs.files id.value with
  | none => .error (.app .notFound "session not found")
  | some (content, _) =>
    match content with
    | .undecodable _ =>
      .error (.wrap "failed to decode session data" (.plain "decode error"))
    | .sessionData d =>
      match dataToSession now d with
      | .error e => .error (.wrap "failed to convert session data" e)
      | .ok s => .ok s

/-- `LocalSessionRepository.GetCurrent`: NotFound if the pointer file
is absent; else parse its content as a `SessionID` (a parse failure is
wrapped) and resolve via `GetByID`. -/
def GetCurrent (now : Int) (fs : FS) : Except Err Session :=
  match fs.current with
  | none => .error (.app .notFound "no current session")
  | some content =>
    match NewSessionID content with
    | .error e => .error (.wrap "invalid session ID in current session file" e)
    | .ok sid => GetByID now fs sid

/-- `LocalSessionRepository.Delete`: `os.Remove`, ignoring NotExist. -/
def Delete (fs : FS) (id : SessionID) : Except Err FS :=
  if id.value ∈ fs.removeFail then
    .error (.wrap "failed to delete session file" (.plain "remove error"))
  else
    .ok { fs with files := fs.files.filter (fun e => e.1 ≠ id.value) }

/-- `LocalSessionRepository.SetCurrent`: overwrite the pointer file
with the session's id. -/
def SetCurrent (fs : FS) (s : Session) : Except Err FS :=
  if fs.writeCurrentFail then
    .error (.wrap "failed to write current session file" (.plain "write error"))
  else
    .ok { fs with current := some s.id.value }

/-- One directory entry of `List`: parse the file name as a
`SessionID` and load it via `GetByID`; entries failing either step are
logged and skipped. -/
def entryToSession (now : Int) (fs : FS) (e : FileEntry) : Option Session :=
  match NewSessionID e.1 with
  | .error _ => none
  | .ok sid =>
    match GetByID now fs sid with
    | .error _ => none
    | .ok s => some s

/-- `LocalSessionRepository.List`: fails only when `os.ReadDir` fails;
otherwise returns every entry that parses and loads. -/
def ListSessions (now : Int) (fs : FS) : Except Err (List Session) :=
  if fs.readDirFail then
    .error (.wrap "failed to read sessions directory" (.plain "read dir error"))
  else
    .ok (fs.files.filterMap (entryToSession now fs))

/-- The loop body shared by `DeleteByUsername` and `DeleteExpired`:
delete the session's record when it matches, logging and skipping a
failed delete. -/
def delIf (p : Session → Bool) (acc : FS) (s : Session) : FS :=
  if p s then
    match Delete acc s.id with
    | .error _ => acc
    | .ok acc' => acc'
  else acc

/-- `LocalSessionRepository.DeleteByUsername`: list, then delete each
listed session whose username matches; a listing failure is returned
wrapped, per-record delete failures are logged and skipped. -/
def DeleteByUsername (now : Int) (fs : FS) (username : Str) : Except Err FS :=
  match ListSessions now fs with
  | .error e => .error (.wrap "failed to list sessions" e)
  | .ok sessions =>
    .ok (sessions.foldl (delIf (fun s => s.username = username)) fs)

/-- `LocalSessionRepository.DeleteExpired`: list, then delete each
listed session that is expired; same error handling as
`DeleteByUsername`. -/
def DeleteExpired (now : Int) (fs : FS) : Except Err FS :=
  match ListSessions now fs with
  | .error e => .error (.wrap "failed to list sessions" e)
  | .ok sessions =>
    .ok (sessions.foldl (delIf (fun s => s.IsExpired now)) fs)

/-! ## internal/infrastructure/repository/aoj_auth_repository.go -/

/-- The decoded body of a successful AOJ login response. -/
structure LoginRespBody where
  userId : Str
  name : Str
  sessionId : Str
  token : Str
deriving DecidableEq, Repr

/-- Outcome of one HTTP exchange with the AOJ service: a transport
failure, or a response with a status code and (for responses whose
body is consulted) either a decodable body or not. -/
inductive RemoteOutcome where
  | transportFailure
  | response (status : Nat) (body : Option LoginRespBody)
deriving DecidableEq, Repr

/-- `AOJAuthRepository.Login`: transport failure → NetworkError;
200 → decode the body (a decode failure is wrapped), generate a fresh
session id (`newId`), and build a 24-hour session whose username is
the response's `id` field and whose token is the response's token;
401 → Unauthorized; 400 → InvalidInput; 500 → ServiceUnavailable;
any other status → InternalServer (`WithDetail(nil, ...)` inner is
nil). -/
def LoginGateway (now : Int) (newId : SessionID) (_username _password : Str)
    (remote : RemoteOutcome) : Except Err Session :=
  match remote with
  | .transportFailure =>
    .error (.appWith .networkError "failed to connect to AOJ"
      (.plain "transport error"))
  | .response status body =>
    if status = 200 then
      match body with
      | none => .error (.wrap "failed to decode login response"
          (.plain "decode error"))
      | some b =>
        .ok (NewSessionWithDuration now newId b.userId b.token (24 * 3600))
    else if status = 401 then
      .error (.app .unauthorized "invalid username or password")
    else if status = 400 then
      .error (.app .invalidInput "invalid login request format")
    else if status = 500 then
      .error (.app .serviceUnavailable "AOJ server error")
    else
      .error (.app .internalServer "unexpected response from AOJ")

/-- `AOJAuthRepository.ValidateSession`: locally expired → false with
no remote call; otherwise probe the service — transport failure →
NetworkError, else valid iff status 200. -/
def ValidateSession (now : Int) (remote : RemoteOutcome) (s : Session) :
    Except Err Bool :=
  if s.IsExpired now then
    .ok false
  else
    match remote with
    | .transportFailure =>
      .error (.appWith .networkError "failed to validate session with AOJ"
        (.plain "transport error"))
    | .response status _ => .ok (status = 200)

/-- `AOJAuthRepository.RefreshSession`: validate first (a validation
error is wrapped); invalid → Unauthorized; valid → a brand-new session
with the freshly generated id `newId`, the input's username and token,
and a renewed 24-hour duration.  The input session is not mutated. -/
def RefreshSession (now : Int) (remote : RemoteOutcome) (newId : SessionID)
    (s : Session) : Except Err Session :=
  match ValidateSession now remote s with
  | .error e => .error (.wrap "failed to validate session for refresh" e)
  | .ok false => .error (.app .unauthorized "session is no longer valid")
  | .ok true =>
    .ok (NewSessionWithDuration now newId s.username s.token (24 * 3600))

/-! ## internal/usecase/login_usecase.go -/

/-- A login request handed to the use case. -/
structure LoginUCRequest where
  username : Str
  password : Str
deriving DecidableEq, Repr

/-- The use case's success response. -/
structure LoginUCResponse where
  success : Bool
  username : Str
  sessionID : Str
  message : String
deriving DecidableEq, Repr

/-- One collaborator invocation made by the use case, recorded so that
"never invoked" is statable. -/
inductive Call where
  | login (username password : Str)
  | save (s : Session)
  | setCurrent (s : Session)
  | delete (id : SessionID)
  | clearCurrent
deriving DecidableEq, Repr

/-- `LoginUseCase.validateRequest`. -/
def validateRequest (req : LoginUCRequest) : Except Err Unit :=
  if trimSpace req.username = [] then
    .error (.app .invalidInput "username cannot be empty")
  else if trimSpace req.password = [] then
    .error (.app .invalidInput "password cannot be empty")
  else
    .ok ()

/-- The session-store operations the use case needs, over an abstract
store state `σ` (the interface `repository.SessionRepository`; the
filesystem store instantiates it). -/
structure RepoOps (σ : Type) where
  save : σ → Session → Except Err σ
  setCurrent : σ → Session → Except Err σ

/-- `RepoOps` as implemented by the filesystem store. -/
def fsRepoOps : RepoOps FS :=
  { save := Save, setCurrent := SetCurrent }

/-- `LoginUseCase.Execute`: validate, then `AuthRepository.Login`,
then `Save`, then `SetCurrent`; each failure is wrapped and returned,
aborting the later steps.  Returns the result, the final store state
and the trace of collaborator calls. -/
def Execute {σ : Type} (login : Str → Str → Except Err Session)
    (repo : RepoOps σ) (st : σ) (req : LoginUCRequest) :
    Except Err LoginUCResponse × σ × List Call :=
  match validateRequest req with
  | .error e => (.error e, st, [])
  | .ok _ =>
    match login req.username req.password with
    | .error e =>
      (.error (.wrap "authentication failed" e), st,
        [.login req.username req.password])
    | .ok session =>
      match repo.save st session with
      | .error e =>
        (.error (.wrap "failed to save session" e), st,
          [.login req.username req.password, .save session])
      | .ok st1 =>
        match repo.setCurrent st1 session with
        | .error e =>
          (.error (.wrap "failed to set current session" e), st1,
            [.login req.username req.password, .save session,
             .setCurrent session])
        | .ok st2 =>
          (.ok { success := true, username := session.username,
                 sessionID := session.id.value,
                 message := "Login successful" }, st2,
            [.login req.username req.password, .save session,
             .setCurrent session])

/-! ## Helper notions for the claims -/

/-- The error code carried by a failed result (`none` on success or on
an error with no `AppError` in its chain). -/
def resultCode {α : Type} : Except Err α → Option ErrorCode
  | .ok _ => none
  | .error e => e.code

/-- A filesystem with no sessions, no pointer file and no injected
faults; new files are created with the typical 0644 mode. -/
def emptyFS : FS :=
  { files := [], current := none, createMode := 0o644, createFail := [],
    chmodFail := [], removeFail := [], readDirFail := false,
    writeCurrentFail := false }

/-- A valid 32-character session id. -/
def aId : SessionID := ⟨List.replicate 32 'a'⟩

/-- A second valid 32-character session id. -/
def bId : SessionID := ⟨List.replicate 32 'b'⟩

/-! ## Basic lemmas -/

instance {ε α : Type} [DecidableEq ε] [DecidableEq α] :
    DecidableEq (Except ε α)
  | .ok a, .ok b =>
    if h : a = b then .isTrue (by rw [h])
    else .isFalse (fun hh => h (by injection hh))
  | .ok _, .error _ => .isFalse (fun hh => Except.noConfusion hh)
  | .error _, .ok _ => .isFalse (fun hh => Except.noConfusion hh)
  | .error a, .error b =>
    if h : a = b then .isTrue (by rw [h])
    else .isFalse (fun hh => h (by injection hh))

theorem NewSessionID_error_code (v : Str) (e : Err)
    (h : NewSessionID v = .error e) : e.code = some .invalidInput := by
  by_cases hv : v = []
  · subst hv
    have hred : NewSessionID [] =
        .error (.app .invalidInput "session ID cannot be empty") := rfl
    rw [hred] at h
    injection h with h'
    subst h'
    rfl
  · by_cases hf : isValidSessionIDFormat (trimSpace v) = true
    · have hred : NewSessionID v = .ok ⟨trimSpace v⟩ := by
        unfold NewSessionID
        rw [if_neg hv]
        simp only [hf, if_true]
      rw [hred] at h
      cases h
    · have hred : NewSessionID v =
          .error (.app .invalidInput "invalid session ID format") := by
        unfold NewSessionID
        rw [if_neg hv]
        simp only [Bool.not_eq_true] at hf
        simp only [hf, Bool.false_eq_true, if_false]
      rw [hred] at h
      injection h with h'
      subst h'
      rfl

theorem dropWhile_eq_self_of_all {p : Char → Bool} {l : Str}
    (h : ∀ c ∈ l, p c = false) : l.dropWhile p = l := by
  cases l with
  | nil => rfl
  | cons a as =>
    have ha : p a = false := h a (List.mem_cons_self a as)
    simp [List.dropWhile_cons, ha]

theorem trimSpace_eq_self_of_no_space {l : Str}
    (h : ∀ c ∈ l, goIsSpace c = false) : trimSpace l = l := by
  unfold trimSpace
  rw [dropWhile_eq_self_of_all h]
  rw [dropWhile_eq_self_of_all (fun c hc => h c (List.mem_reverse.mp hc))]
  exact List.reverse_reverse l

theorem hex_not_space {c : Char} (h : isHexChar c = true) :
    goIsSpace c = false := by
  rw [Bool.eq_false_iff]
  intro hs
  unfold isHexChar at h
  unfold goIsSpace at hs
  simp only [Bool.or_eq_true, Bool.and_eq_true, decide_eq_true_eq] at h hs
  omega

theorem trimSpace_of_format {l : Str}
    (h : isValidSessionIDFormat l = true) : trimSpace l = l := by
  unfold isValidSessionIDFormat at h
  simp only [Bool.and_eq_true, List.all_eq_true] at h
  exact trimSpace_eq_self_of_no_space (fun c hc => hex_not_space (h.2 c hc))

theorem NewSessionID_of_format {l : Str}
    (h : isValidSessionIDFormat l = true) : NewSessionID l = .ok ⟨l⟩ := by
  have hne : l ≠ [] := by
    intro he
    subst he
    simp [isValidSessionIDFormat] at h
  unfold NewSessionID
  rw [if_neg hne]
  simp only [trimSpace_of_format h, h, if_true]

/-! ## Claim C9 -/

/-- Claim C9: `RefreshFromNow(d)` sets the expiry to
`max(now, old expiresAt) + d` — anchoring at `now` when the session is
already expired — and sets `lastUsedAt` to `now`. -/
theorem C9_refreshFromNow_max (now duration : Int) (s : Session) :
    (s.RefreshFromNow now duration).expiresAt =
      max now s.expiresAt + duration ∧
    (s.RefreshFromNow now duration).lastUsed = now := by
  unfold Session.RefreshFromNow
  split
  all_goals constructor
  all_goals simp_all
  all_goals omega

/-! ## Claim C5 -/

/-- Claim C5 (amended): construction succeeds, returning the trimmed value,
exactly when the whitespace-trimmed input is 32–128 hex characters; on
every other input (including the empty string) it fails with an
InvalidInput-kind error.  In particular every untrimmed 32–128-hex
string succeeds, but so do hex strings padded with whitespace, which
the original claim required to fail. -/
theorem C5_sessionID_construction (value : Str) :
    (isValidSessionIDFormat (trimSpace value) = true →
      NewSessionID value = .ok ⟨trimSpace value⟩) ∧
    (isValidSessionIDFormat (trimSpace value) = false →
      (NewSessionID value).isOk = false ∧
      resultCode (NewSessionID value) = some .invalidInput) := by
  constructor
  · intro h
    have hne : value ≠ [] := by
      intro he
      subst he
      simp [trimSpace, isValidSessionIDFormat] at h
    unfold NewSessionID
    rw [if_neg hne]
    simp only [h, if_true]
  · intro h
    by_cases hne : value = []
    · subst hne
      constructor <;> rfl
    · unfold NewSessionID
      rw [if_neg hne]
      simp only [h, Bool.false_eq_true, if_false]
      constructor <;> rfl

/-- Claim C5 counterexample: a single space followed by 32 hex characters is
not itself a string of 32–128 hex characters, yet construction
succeeds (the input is trimmed before validation). -/
theorem C5_counterexample :
    isValidSessionIDFormat (' ' :: List.replicate 32 'a') = false ∧
    NewSessionID (' ' :: List.replicate 32 'a') =
      .ok ⟨List.replicate 32 'a'⟩ := by
  constructor
  · decide
  · decide

/-- Claim C5 witness: both halves of the amended statement at concrete
inputs — 32 hex characters succeed; `"zz"` fails InvalidInput. -/
theorem C5_witness :
    NewSessionID (List.replicate 32 'a') = .ok ⟨List.replicate 32 'a'⟩ ∧
    (NewSessionID (str "zz")).isOk = false ∧
    resultCode (NewSessionID (str "zz")) = some .invalidInput := by
  refine ⟨?_, ?_, ?_⟩
  · have h := (C5_sessionID_construction (List.replicate 32 'a')).1
      (by decide)
    simpa [trimSpace_of_format (l := List.replicate 32 'a') (by decide)]
      using h
  · exact ((C5_sessionID_construction (str "zz")).2 (by decide)).1
  · exact ((C5_sessionID_construction (str "zz")).2 (by decide)).2

/-! ## Claim C10 -/

/-- Claim C10: when the pointer file exists but its content does not parse
as a `SessionID`, `GetCurrent` fails with an InvalidInput-kind error
(the parse error wrapped with context), not with NotFound. -/
theorem C10_getCurrent_unparseable_pointer (now : Int) (fs : FS) (c : Str)
    (h1 : fs.current = some c) (h2 : (NewSessionID c).isOk = false) :
    (GetCurrent now fs).isOk = false ∧
    resultCode (GetCurrent now fs) = some .invalidInput ∧
    resultCode (GetCurrent now fs) ≠ some .notFound := by
  match he : NewSessionID c with
  | .ok sid => rw [he] at h2; cases h2
  | .error e =>
    have hcode := NewSessionID_error_code c e he
    have hred : GetCurrent now fs =
        .error (.wrap "invalid session ID in current session file" e) := by
      unfold GetCurrent
      rw [h1]
      dsimp only
      rw [he]
    rw [hred]
    refine ⟨rfl, ?_, ?_⟩
    · simp [resultCode, Err.code, hcode]
    · simp [resultCode, Err.code, hcode]

/-- Claim C10 witness: a pointer file holding the empty string makes
`GetCurrent` fail InvalidInput. -/
theorem C10_witness :
    (GetCurrent 0 { emptyFS with current := some [] }).isOk = false ∧
    resultCode (GetCurrent 0 { emptyFS with current := some [] }) =
      some .invalidInput := by
  have h := C10_getCurrent_unparseable_pointer 0
    { emptyFS with current := some [] } [] rfl (by decide)
  exact ⟨h.1, h.2.1⟩

/-! ## Claim C4 -/

/-- Claim C4: `GetCurrent` fails NotFound when the pointer file is absent;
when the pointer exists and parses, it returns exactly what `GetByID`
returns for the stored id — in particular a dangling pointer (target
record deleted without `ClearCurrent`) surfaces as plain NotFound. -/
theorem C4_getCurrent_resolution (now : Int) (fs : FS) :
    (fs.current = none →
      (GetCurrent now fs).isOk = false ∧
      resultCode (GetCurrent now fs) = some .notFound) ∧
    (∀ c sid, fs.current = some c → NewSessionID c = .ok sid →
      GetCurrent now fs = GetByID now fs sid ∧
      (lookupFile fs.files sid.value = none →
        (GetCurrent now fs).isOk = false ∧
        resultCode (GetCurrent now fs) = some .notFound)) := by
  constructor
  · intro h
    have hred : GetCurrent now fs = .error (.app .notFound "no current session") := by
      unfold GetCurrent
      rw [h]
    rw [hred]
    exact ⟨rfl, rfl⟩
  · intro c sid h1 h2
    have hred : GetCurrent now fs = GetByID now fs sid := by
      unfold GetCurrent
      rw [h1]
      dsimp only
      rw [h2]
    refine ⟨hred, ?_⟩
    intro hmiss
    have hred2 : GetByID now fs sid = .error (.app .notFound "session not found") := by
      unfold GetByID
      rw [hmiss]
    rw [hred, hred2]
    exact ⟨rfl, rfl⟩

/-- Claim C4 witness: with no pointer file `GetCurrent` is NotFound; with a
pointer naming a deleted record it is again plain NotFound. -/
theorem C4_witness :
    (GetCurrent 0 emptyFS).isOk = false ∧
    resultCode (GetCurrent 0 emptyFS) = some .notFound ∧
    GetCurrent 0 { emptyFS with current := some aId.value } =
      GetByID 0 { emptyFS with current := some aId.value } aId ∧
    resultCode (GetCurrent 0 { emptyFS with current := some aId.value }) =
      some .notFound := by
  have h1 := (C4_getCurrent_resolution 0 emptyFS).1 rfl
  have h2 := (C4_getCurrent_resolution 0
    { emptyFS with current := some aId.value }).2 aId.value aId rfl
    (by decide)
  exact ⟨h1.1, h1.2, h2.1, (h2.2 rfl).2⟩

/-! ## Claim C7 -/

/-- Claim C7: `RefreshSession` consults `ValidateSession` first: an invalid
session yields an Unauthorized-kind error; a valid one yields a brand
new session whose id is the freshly generated one (hence different
from the input's whenever the generator returns a different id), whose
username and token are the input's, and whose duration is a renewed 24
hours.  The input session is a value in this embedding and is never
mutated, matching the source, which calls no mutator on it. -/
theorem C7_refreshSession (now : Int) (remote : RemoteOutcome)
    (newId : SessionID) (s : Session) :
    (ValidateSession now remote s = .ok false →
      (RefreshSession now remote newId s).isOk = false ∧
      resultCode (RefreshSession now remote newId s) = some .unauthorized) ∧
    (ValidateSession now remote s = .ok true →
      RefreshSession now remote newId s =
        .ok { id := newId, username := s.username, token := s.token,
              expiresAt := now + 24 * 3600, createdAt := now,
              lastUsed := now } ∧
      (newId ≠ s.id → ∀ s', RefreshSession now remote newId s = .ok s' →
        s'.id ≠ s.id)) := by
  constructor
  · intro h
    have hred : RefreshSession now remote newId s =
        .error (.app .unauthorized "session is no longer valid") := by
      unfold RefreshSession
      rw [h]
    rw [hred]
    exact ⟨rfl, rfl⟩
  · intro h
    have hred : RefreshSession now remote newId s =
        .ok (NewSessionWithDuration now newId s.username s.token (24 * 3600)) := by
      unfold RefreshSession
      rw [h]
    refine ⟨by rw [hred]; rfl, ?_⟩
    intro hne s' hs'
    rw [hred] at hs'
    injection hs' with h'
    subst h'
    exact hne

/-- Claim C7 witness: a session that is locally expired at refresh time is
invalid, so refresh fails Unauthorized; the same session refreshed
while still valid (remote probe 200) yields the new id, same
username/token, and a 24-hour expiry. -/
theorem C7_witness :
    (RefreshSession 200 (.response 200 none) bId
      (NewSession 0 aId (str "alice") (str "tok") 100)).isOk = false ∧
    resultCode (RefreshSession 200 (.response 200 none) bId
      (NewSession 0 aId (str "alice") (str "tok") 100)) = some .unauthorized ∧
    RefreshSession 50 (.response 200 none) bId
      (NewSession 0 aId (str "alice") (str "tok") 100) =
      .ok { id := bId, username := str "alice", token := str "tok",
            expiresAt := 50 + 24 * 3600, createdAt := 50, lastUsed := 50 } := by
  have h1 := (C7_refreshSession 200 (.response 200 none) bId
    (NewSession 0 aId (str "alice") (str "tok") 100)).1 (by decide)
  have h2 := (C7_refreshSession 50 (.response 200 none) bId
    (NewSession 0 aId (str "alice") (str "tok") 100)).2 (by decide)
  exact ⟨h1.1, h1.2, h2.1⟩

/-! ## Claim C8 -/

/-- Claim C8 (amended): the status mapping of `Login` holds as claimed for
every transport failure and every status code, with the success case
qualified by a decodable body: 200 with a body that decodes yields a
fresh 24-hour session; 200 with an undecodable body yields a wrapped
decode error (no error code), not a success; 401 → Unauthorized;
400 → InvalidInput; 500 → ServiceUnavailable; transport failure →
NetworkError; any other status → InternalServer. -/
theorem C8_login_outcome_mapping (now : Int) (newId : SessionID)
    (u p : Str) :
    (∀ b, LoginGateway now newId u p (.response 200 (some b)) =
      .ok (NewSessionWithDuration now newId b.userId b.token (24 * 3600))) ∧
    ((LoginGateway now newId u p (.response 200 none)).isOk = false ∧
      resultCode (LoginGateway now newId u p (.response 200 none)) = none) ∧
    ((LoginGateway now newId u p .transportFailure).isOk = false ∧
      resultCode (LoginGateway now newId u p .transportFailure) =
        some .networkError) ∧
    (∀ b, (LoginGateway now newId u p (.response 401 b)).isOk = false ∧
      resultCode (LoginGateway now newId u p (.response 401 b)) =
        some .unauthorized) ∧
    (∀ b, (LoginGateway now newId u p (.response 400 b)).isOk = false ∧
      resultCode (LoginGateway now newId u p (.response 400 b)) =
        some .invalidInput) ∧
    (∀ b, (LoginGateway now newId u p (.response 500 b)).isOk = false ∧
      resultCode (LoginGateway now newId u p (.response 500 b)) =
        some .serviceUnavailable) ∧
    (∀ status b, status ≠ 200 → status ≠ 401 → status ≠ 400 → status ≠ 500 →
      (LoginGateway now newId u p (.response status b)).isOk = false ∧
      resultCode (LoginGateway now newId u p (.response status b)) =
        some .internalServer) := by
  refine ⟨fun b => rfl, ⟨rfl, rfl⟩, ⟨rfl, rfl⟩, fun b => ⟨rfl, rfl⟩,
    fun b => ⟨rfl, rfl⟩, fun b => ⟨rfl, rfl⟩, ?_⟩
  intro status b h200 h401 h400 h500
  have hred : LoginGateway now newId u p (.response status b) =
      .error (.app .internalServer "unexpected response from AOJ") := by
    unfold LoginGateway
    dsimp only
    rw [if_neg h200, if_neg h401, if_neg h400, if_neg h500]
  rw [hred]
  exact ⟨rfl, rfl⟩

/-- Claim C8 counterexample: an HTTP 200 whose body fails to decode as a
login response does not produce a session — the original "200 →
success" mapping is violated. -/
theorem C8_counterexample :
    (LoginGateway 0 aId (str "u") (str "p") (.response 200 none)).isOk
      = false := by
  decide

/-- Claim C8 witness: each arm of the mapping at concrete inputs, including
an unlisted status (503 → InternalServer). -/
theorem C8_witness :
    LoginGateway 0 aId (str "u") (str "p")
        (.response 200 (some ⟨str "u", str "U", str "sid", str "tok"⟩)) =
      .ok (NewSessionWithDuration 0 aId (str "u") (str "tok") (24 * 3600)) ∧
    resultCode (LoginGateway 0 aId (str "u") (str "p") .transportFailure) =
      some .networkError ∧
    resultCode (LoginGateway 0 aId (str "u") (str "p") (.response 401 none)) =
      some .unauthorized ∧
    resultCode (LoginGateway 0 aId (str "u") (str "p") (.response 400 none)) =
      some .invalidInput ∧
    resultCode (LoginGateway 0 aId (str "u") (str "p") (.response 500 none)) =
      some .serviceUnavailable ∧
    resultCode (LoginGateway 0 aId (str "u") (str "p") (.response 503 none)) =
      some .internalServer := by
  have h := C8_login_outcome_mapping 0 aId (str "u") (str "p")
  refine ⟨h.1 ⟨str "u", str "U", str "sid", str "tok"⟩, h.2.2.1.2,
    (h.2.2.2.1 none).2, (h.2.2.2.2.1 none).2, (h.2.2.2.2.2.1 none).2,
    (h.2.2.2.2.2.2 503 none (by decide) (by decide) (by decide) (by decide)).2⟩

/-! ## Claim C1 -/

/-- A concrete session whose `createdAt` (second 1000) differs from any
later load time. -/
def c1Session : Session :=
  { id := aId, username := str "alice", token := str "tok",
    expiresAt := 5000, createdAt := 1000, lastUsed := 900 }

/-- Claim C1 (code bug): saving `c1Session` (createdAt = 1000) and loading it
back at time 2000 returns an entity whose id, username, token,
expiresAt and lastUsed match, but whose `createdAt` is the load time
2000, not the stored 1000: `dataToSession` rebuilds the entity via
`entity.NewSession`, which stamps `createdAt` with `time.Now()`, and
never restores the serialized `created_at` field (unlike
`entity.FromMap`, which does). -/
theorem C1_createdAt_not_restored :
    ((Save emptyFS c1Session).bind
        (fun fs1 => GetByID 2000 fs1 c1Session.id)).map
      (fun s => (s.id, s.username, s.token, s.expiresAt, s.createdAt,
        s.lastUsed)) =
      .ok (c1Session.id, c1Session.username, c1Session.token, 5000, 2000,
        900) ∧
    c1Session.createdAt = 1000 := by
  constructor
  · decide
  · rfl

/-! ## Claim C6 -/

theorem lookupFile_setFile_self (l : List FileEntry) (k : Str)
    (c : FileContent) (m : Nat) :
    lookupFile (setFile l k c m) k = some (c, m) := by
  induction l with
  | nil => simp [setFile, lookupFile]
  | cons e rest ih =>
    by_cases h : e.1 = k
    · simp [setFile, lookupFile, h]
    · simp only [setFile, h, if_false, lookupFile, ih]

/-- Claim C6 (amended): whenever `Save(s)` succeeds and the chmod on the
record file succeeds, the persisted record for `s.id` holds the
serialized session with mode exactly 0600 (owner read/write).  When
the chmod fails, `Save` still returns success — the failure is only
logged — and the record keeps the mode `os.Create` left it with. -/
theorem C6_save_sets_owner_only_mode (fs : FS) (s : Session) (fs' : FS)
    (hchmod : s.id.value ∉ fs.chmodFail) (hsave : Save fs s = .ok fs') :
    lookupFile fs'.files s.id.value =
      some (.sessionData (sessionToData s), 0o600) := by
  unfold Save at hsave
  by_cases hc : s.id.value ∈ fs.createFail
  · rw [if_pos hc] at hsave
    cases hsave
  · rw [if_neg hc] at hsave
    dsimp only at hsave
    rw [if_neg hchmod] at hsave
    injection hsave with h'
    subst h'
    exact lookupFile_setFile_self _ _ _ _

/-- Claim C6 witness: saving into the fault-free empty store leaves the
record with mode 0600. -/
theorem C6_witness :
    c1Session.id.value ∉ emptyFS.chmodFail ∧
    Save emptyFS c1Session =
      .ok { emptyFS with
            files := [(c1Session.id.value,
              .sessionData (sessionToData c1Session), 0o600)] } ∧
    lookupFile [(c1Session.id.value,
        .sessionData (sessionToData c1Session), 0o600)]
        c1Session.id.value =
      some (.sessionData (sessionToData c1Session), 0o600) := by
  refine ⟨by decide, by decide, ?_⟩
  have h := C6_save_sets_owner_only_mode emptyFS c1Session
    { emptyFS with
      files := [(c1Session.id.value,
        .sessionData (sessionToData c1Session), 0o600)] }
    (by decide) (by decide)
  exact h

/-- Claim C6 counterexample: when the chmod fails (injected fault), `Save`
still succeeds, but the record is left with the creation mode 0644,
not owner-only 0600 — the original unconditional claim is violated. -/
theorem C6_counterexample :
    (Save { emptyFS with chmodFail := [c1Session.id.value] } c1Session).map
        (fun f => lookupFile f.files c1Session.id.value) =
      .ok (some (.sessionData (sessionToData c1Session), 0o644)) ∧
    (0o644 : Nat) ≠ 0o600 := by
  constructor
  · decide
  · decide

/-! ## Claim C2 -/

/-- Claim C2: `Execute` runs validate → Login → Save → SetCurrent, each
failure aborting all later steps.  (1) A blank username or password
fails InvalidInput with an empty call trace — in particular no gateway
call; (2) a Login failure leaves the trace at exactly the login call —
Save and SetCurrent are never invoked; (3) a Save failure stops before
SetCurrent, leaving the store untouched — the pointer is never set to
an unsaved session; (4) a SetCurrent failure after a successful Save
returns an error while the final store state is exactly the post-Save
state (the saved record remains persisted) and the trace shows no
compensating delete or clear. -/
theorem C2_login_workflow_sequencing {σ : Type}
    (login : Str → Str → Except Err Session) (repo : RepoOps σ) (st : σ)
    (req : LoginUCRequest) :
    ((trimSpace req.username = [] ∨ trimSpace req.password = []) →
      ((Execute login repo st req).1.isOk = false ∧
        resultCode (Execute login repo st req).1 = some .invalidInput) ∧
      (Execute login repo st req).2.2 = [] ∧
      (Execute login repo st req).2.1 = st) ∧
    (∀ e, validateRequest req = .ok () →
      login req.username req.password = .error e →
      Execute login repo st req =
        (.error (.wrap "authentication failed" e), st,
          [.login req.username req.password])) ∧
    (∀ s e, validateRequest req = .ok () →
      login req.username req.password = .ok s →
      repo.save st s = .error e →
      Execute login repo st req =
        (.error (.wrap "failed to save session" e), st,
          [.login req.username req.password, .save s])) ∧
    (∀ s st1 e, validateRequest req = .ok () →
      login req.username req.password = .ok s →
      repo.save st s = .ok st1 →
      repo.setCurrent st1 s = .error e →
      Execute login repo st req =
        (.error (.wrap "failed to set current session" e), st1,
          [.login req.username req.password, .save s, .setCurrent s])) := by
  refine ⟨?_, ?_, ?_, ?_⟩
  · intro h
    have hv : validateRequest req =
        .error (.app .invalidInput
          (if trimSpace req.username = [] then "username cannot be empty"
           else "password cannot be empty")) := by
      unfold validateRequest
      by_cases h1 : trimSpace req.username = []
      · rw [if_pos h1, if_pos h1]
      · rcases h with h | h2
        · exact absurd h h1
        · rw [if_neg h1, if_pos h2, if_neg h1]
    have hred : Execute login repo st req =
        (.error (.app .invalidInput
          (if trimSpace req.username = [] then "username cannot be empty"
           else "password cannot be empty")), st, []) := by
      unfold Execute
      rw [hv]
    rw [hred]
    exact ⟨⟨rfl, rfl⟩, rfl, rfl⟩
  · intro e hv hl
    unfold Execute
    rw [hv]
    dsimp only
    rw [hl]
  · intro s e hv hl hs
    unfold Execute
    rw [hv]
    dsimp only
    rw [hl]
    dsimp only
    rw [hs]
  · intro s st1 e hv hl hs hsc
    unfold Execute
    rw [hv]
    dsimp only
    rw [hl]
    dsimp only
    rw [hs]
    dsimp only
    rw [hsc]

/-- A session the witness oracles produce. -/
def c2Session : Session :=
  { id := aId, username := str "alice", token := str "tok",
    expiresAt := 5000, createdAt := 0, lastUsed := 0 }

/-- Claim C2 witness: the four phases at concrete inputs over the filesystem
store — blank username; Unauthorized login; Save failing on a create
fault; SetCurrent failing on a pointer-write fault after a successful
Save. -/
theorem C2_witness :
    ((Execute (fun _ _ => .error (.plain "never"))
        fsRepoOps emptyFS ⟨[], str "p"⟩).2.2 = [] ∧
      resultCode (Execute (fun _ _ => .error (.plain "never"))
        fsRepoOps emptyFS ⟨[], str "p"⟩).1 = some .invalidInput) ∧
    Execute (fun _ _ => .error (.app .unauthorized "invalid username or password"))
        fsRepoOps emptyFS ⟨str "u", str "p"⟩ =
      (.error (.wrap "authentication failed"
          (.app .unauthorized "invalid username or password")), emptyFS,
        [.login (str "u") (str "p")]) ∧
    Execute (fun _ _ => .ok c2Session) fsRepoOps
        { emptyFS with createFail := [c2Session.id.value] }
        ⟨str "u", str "p"⟩ =
      (.error (.wrap "failed to save session"
          (.wrap "failed to create session file" (.plain "create error"))),
        { emptyFS with createFail := [c2Session.id.value] },
        [.login (str "u") (str "p"), .save c2Session]) ∧
    Execute (fun _ _ => .ok c2Session) fsRepoOps
        { emptyFS with writeCurrentFail := true } ⟨str "u", str "p"⟩ =
      (.error (.wrap "failed to set current session"
          (.wrap "failed to write current session file" (.plain "write error"))),
        { emptyFS with
          writeCurrentFail := true
          files := [(c2Session.id.value,
            .sessionData (sessionToData c2Session), 0o600)] },
        [.login (str "u") (str "p"), .save c2Session,
          .setCurrent c2Session]) := by
  refine ⟨?_, ?_, ?_, ?_⟩
  · have h := (C2_login_workflow_sequencing
      (fun _ _ => .error (.plain "never")) fsRepoOps emptyFS
      ⟨[], str "p"⟩).1 (Or.inl rfl)
    exact ⟨h.2.1, h.1.2⟩
  · exact (C2_login_workflow_sequencing _ fsRepoOps emptyFS
      ⟨str "u", str "p"⟩).2.1 _ (by decide) rfl
  · exact (C2_login_workflow_sequencing _ fsRepoOps
      { emptyFS with createFail := [c2Session.id.value] }
      ⟨str "u", str "p"⟩).2.2.1 c2Session _ (by decide) rfl (by decide)
  · exact (C2_login_workflow_sequencing _ fsRepoOps
      { emptyFS with writeCurrentFail := true }
      ⟨str "u", str "p"⟩).2.2.2 c2Session _ _ (by decide) rfl (by decide)
      (by decide)

/-! ## Claim C3: infrastructure -/

/-- The ids the delete loop targets: listed sessions satisfying the
filter whose record removal does not fault. -/
def delTargets (p : Session → Bool) (rf : List Str) (ss : List Session)
    (e : FileEntry) : Bool :=
  ss.any (fun s => p s && !(decide (s.id.value ∈ rf)) &&
    decide (e.1 = s.id.value))

theorem delIf_eq (p : Session → Bool) (acc : FS) (s : Session) :
    delIf p acc s =
      { acc with files := acc.files.filter (fun e =>
          !(p s && !(decide (s.id.value ∈ acc.removeFail)) &&
            decide (e.1 = s.id.value))) } := by
  by_cases hp : p s = true
  · by_cases hrf : s.id.value ∈ acc.removeFail
    · have hdel : Delete acc s.id = .error
          (.wrap "failed to delete session file" (.plain "remove error")) := by
        unfold Delete
        rw [if_pos hrf]
      have hfilter : acc.files.filter (fun e =>
          !(p s && !(decide (s.id.value ∈ acc.removeFail)) &&
            decide (e.1 = s.id.value))) = acc.files := by
        refine List.filter_eq_self.mpr (fun a _ => ?_)
        simp [hp, hrf]
      rw [hfilter]
      unfold delIf
      rw [if_pos hp, hdel]
    · have hdel : Delete acc s.id = .ok
          { acc with
            files := acc.files.filter (fun e => e.1 ≠ s.id.value) } := by
        unfold Delete
        rw [if_neg hrf]
      have hfilter : acc.files.filter (fun e =>
          !(p s && !(decide (s.id.value ∈ acc.removeFail)) &&
            decide (e.1 = s.id.value))) =
          acc.files.filter (fun e => e.1 ≠ s.id.value) := by
        refine List.filter_congr (fun a _ => ?_)
        simp [hp, hrf]
      rw [hfilter]
      unfold delIf
      rw [if_pos hp, hdel]
  · have hfilter : acc.files.filter (fun e =>
        !(p s && !(decide (s.id.value ∈ acc.removeFail)) &&
          decide (e.1 = s.id.value))) = acc.files := by
      refine List.filter_eq_self.mpr (fun a _ => ?_)
      simp only [Bool.not_eq_true] at hp
      simp [hp]
    rw [hfilter]
    unfold delIf
    rw [if_neg hp]

theorem foldl_delIf_eq (p : Session → Bool) (ss : List Session) (acc : FS) :
    ss.foldl (delIf p) acc =
      { acc with files := acc.files.filter (fun e =>
          !(delTargets p acc.removeFail ss e)) } := by
  induction ss generalizing acc with
  | nil =>
    have hfilter : acc.files.filter (fun e =>
        !(delTargets p acc.removeFail [] e)) = acc.files := by
      refine List.filter_eq_self.mpr (fun a _ => ?_)
      simp [delTargets]
    rw [hfilter]
    rfl
  | cons s ss ih =>
    rw [List.foldl_cons, delIf_eq, ih]
    dsimp only
    rw [List.filter_filter]
    refine congrArg (fun L => { acc with files := L }) ?_
    refine List.filter_congr (fun a _ => ?_)
    simp only [delTargets, List.any_cons, Bool.not_or, Bool.and_comm]

/-- An entry is well-formed when it is a session record filed under
its own (format-valid) id — the shape `Save` always produces. -/
def wfEntry (e : FileEntry) : Bool :=
  match e.2.1 with
  | .sessionData d => decide (e.1 = d.id) && isValidSessionIDFormat d.id
  | .undecodable _ => false

/-- A well-formed store: distinct file names, every entry filed under
its own id. -/
def WFfs (fs : FS) : Prop :=
  fs.files.Pairwise (fun a b => a.1 ≠ b.1) ∧
  ∀ e ∈ fs.files, wfEntry e = true

/-- The session `GetByID` rebuilds (at load instant `now`) from a
stored record with a format-valid id. -/
def loadSessionOfData (now : Int) (d : SessionData) : Session :=
  { id := ⟨d.id⟩, username := d.username, token := d.token,
    expiresAt := d.expiresAt, createdAt := now, lastUsed := d.lastUsed }

/-- `loadSessionOfData` read off an entry (junk on undecodable
content, which well-formedness excludes). -/
def loadOf (now : Int) (e : FileEntry) : Session :=
  match e.2.1 with
  | .sessionData d => loadSessionOfData now d
  | .undecodable _ => loadSessionOfData now ⟨e.1, [], [], 0, 0, 0⟩

/-- Whether the delete loop removes the record held by an entry: its
loaded session satisfies the filter and its id's removal does not
fault. -/
def entryMatches (p : Session → Bool) (now : Int) (rf : List Str)
    (e : FileEntry) : Bool :=
  match e.2.1 with
  | .sessionData d => p (loadSessionOfData now d) && !(decide (d.id ∈ rf))
  | .undecodable _ => false

theorem dataToSession_of_format (now : Int) (d : SessionData)
    (hf : isValidSessionIDFormat d.id = true) :
    dataToSession now d = .ok (loadSessionOfData now d) := by
  unfold dataToSession
  rw [NewSessionID_of_format hf]
  rfl

theorem lookupFile_of_mem {l : List FileEntry}
    (hnd : l.Pairwise (fun a b => a.1 ≠ b.1)) {k : Str}
    {c : FileContent} {m : Nat} (hm : (k, c, m) ∈ l) :
    lookupFile l k = some (c, m) := by
  induction l with
  | nil => cases hm
  | cons e rest ih =>
    rw [List.pairwise_cons] at hnd
    rcases List.mem_cons.mp hm with he | hrest
    · subst he
      simp [lookupFile]
    · have hne : e.1 ≠ k := hnd.1 (k, c, m) hrest
      unfold lookupFile
      rw [if_neg hne]
      exact ih hnd.2 hrest

theorem key_unique {l : List FileEntry}
    (hnd : l.Pairwise (fun a b => a.1 ≠ b.1)) {e e' : FileEntry}
    (he : e ∈ l) (he' : e' ∈ l) (hk : e.1 = e'.1) : e = e' := by
  induction l with
  | nil => cases he
  | cons a rest ih =>
    rw [List.pairwise_cons] at hnd
    rcases List.mem_cons.mp he with h1 | h1 <;>
      rcases List.mem_cons.mp he' with h2 | h2
    · rw [h1, h2]
    · subst h1
      exact absurd hk (hnd.1 e' h2)
    · subst h2
      exact absurd hk.symm (hnd.1 e h1)
    · exact ih hnd.2 h1 h2

theorem wfEntry_elim {e : FileEntry} (h : wfEntry e = true) :
    ∃ d : SessionData, e.2.1 = .sessionData d ∧ e.1 = d.id ∧
      isValidSessionIDFormat d.id = true ∧
      loadOf 0 e = loadSessionOfData 0 d := by
  obtain ⟨k, c, m⟩ := e
  match c with
  | .undecodable _ => cases h
  | .sessionData d =>
    unfold wfEntry at h
    simp only [Bool.and_eq_true, decide_eq_true_eq] at h
    exact ⟨d, rfl, h.1, h.2, rfl⟩

theorem loadOf_sessionData (now : Int) (k : Str) (d : SessionData)
    (m : Nat) : loadOf now (k, .sessionData d, m) = loadSessionOfData now d := rfl

theorem entryToSession_wf (now : Int) (fs : FS) (hwf : WFfs fs)
    {e : FileEntry} (hm : e ∈ fs.files) :
    entryToSession now fs e = some (loadOf now e) := by
  obtain ⟨d, hc, hk, hf, _⟩ := wfEntry_elim (hwf.2 e hm)
  obtain ⟨k, c, m⟩ := e
  dsimp only at hc hk
  subst hc
  subst hk
  rw [loadOf_sessionData]
  unfold entryToSession
  dsimp only
  rw [NewSessionID_of_format hf]
  have hlook : lookupFile fs.files d.id = some (.sessionData d, m) :=
    lookupFile_of_mem hwf.1 hm
  have hget : GetByID now fs ⟨d.id⟩ = .ok (loadSessionOfData now d) := by
    unfold GetByID
    dsimp only
    rw [hlook]
    dsimp only
    rw [dataToSession_of_format now d hf]
  dsimp only
  rw [hget]

theorem filterMap_eq_map_of_forall {α β : Type} {f : α → Option β}
    {g : α → β} {l : List α} (h : ∀ a ∈ l, f a = some (g a)) :
    l.filterMap f = l.map g := by
  induction l with
  | nil => rfl
  | cons a rest ih =>
    rw [List.filterMap_cons, h a (List.mem_cons_self a rest), List.map_cons,
      ih (fun x hx => h x (List.mem_cons_of_mem a hx))]

theorem listSessions_wf (now : Int) (fs : FS) (hwf : WFfs fs)
    (hrd : fs.readDirFail = false) :
    ListSessions now fs = .ok (fs.files.map (loadOf now)) := by
  unfold ListSessions
  rw [hrd]
  simp only [Bool.false_eq_true, if_false]
  exact congrArg Except.ok
    (filterMap_eq_map_of_forall (fun e he => entryToSession_wf now fs hwf he))

theorem loadOf_id_of_wf {fs : FS} (hwf : WFfs fs) {x : FileEntry}
    (hx : x ∈ fs.files) (now : Int) : (loadOf now x).id.value = x.1 := by
  obtain ⟨d, hc, hk, _, _⟩ := wfEntry_elim (hwf.2 x hx)
  obtain ⟨k, c, m⟩ := x
  dsimp only at hc hk
  subst hc
  rw [loadOf_sessionData]
  exact hk.symm

theorem delTargets_eq_entryMatches (now : Int) (p : Session → Bool)
    (fs : FS) (hwf : WFfs fs) {e : FileEntry} (hm : e ∈ fs.files) :
    delTargets p fs.removeFail (fs.files.map (loadOf now)) e =
      entryMatches p now fs.removeFail e := by
  obtain ⟨d, hc, hk, hf, _⟩ := wfEntry_elim (hwf.2 e hm)
  have hload : loadOf now e = loadSessionOfData now d := by
    obtain ⟨k, c, m⟩ := e
    dsimp only at hc
    subst hc
    rfl
  have hrhs : entryMatches p now fs.removeFail e =
      (p (loadSessionOfData now d) && !(decide (d.id ∈ fs.removeFail))) := by
    obtain ⟨k, c, m⟩ := e
    dsimp only at hc
    subst hc
    rfl
  rw [hrhs]
  unfold delTargets
  by_cases hval :
      (p (loadSessionOfData now d) && !(decide (d.id ∈ fs.removeFail))) = true
  · rw [hval]
    refine List.any_eq_true.mpr
      ⟨loadOf now e, List.mem_map_of_mem (loadOf now) hm, ?_⟩
    rw [hload]
    have hid : (loadSessionOfData now d).id.value = d.id := rfl
    rw [hid, hk]
    simp only [Bool.and_eq_true] at hval
    simp [hval.1, hval.2]
  · rw [Bool.eq_false_iff.mpr hval]
    rw [List.any_eq_false]
    intro s hs
    intro hpred
    obtain ⟨x, hx, hsx⟩ := List.mem_map.mp hs
    subst hsx
    simp only [Bool.and_eq_true, decide_eq_true_eq] at hpred
    have hxid : (loadOf now x).id.value = x.1 := loadOf_id_of_wf hwf hx now
    have hkey : e.1 = x.1 := by rw [← hxid]; exact hpred.2
    have hex : e = x := key_unique hwf.1 hm hx hkey
    subst hex
    refine hval ?_
    rw [Bool.and_eq_true]
    constructor
    · rw [← hload]
      exact hpred.1.1
    · have h2 := hpred.1.2
      rw [hxid, hk] at h2
      exact h2

/-! ## Claim C3 -/

/-- Claim C3 (amended): on a well-formed store (each record filed under its
own id) whose directory listing succeeds, `DeleteByUsername(name)` and
`DeleteExpired()` both return success, and the surviving files are
exactly those whose loaded session does not match the operation's
filter (username equal to `name`, resp. expired at call time) or whose
per-record removal faults — matching records with a faulting removal
are skipped without halting the remaining deletions.  If the listing
itself fails, the operations return that error wrapped (shown by the
counterexample path being the listing, not the per-record deletes). -/
theorem C3_delete_best_effort (now : Int) (u : Str) (fs : FS)
    (hwf : WFfs fs) (hrd : fs.readDirFail = false) :
    DeleteByUsername now fs u =
      .ok { fs with files := fs.files.filter (fun e =>
        !(entryMatches (fun s => s.username = u) now fs.removeFail e)) } ∧
    DeleteExpired now fs =
      .ok { fs with files := fs.files.filter (fun e =>
        !(entryMatches (fun s => s.IsExpired now) now fs.removeFail e)) } := by
  constructor
  · unfold DeleteByUsername
    rw [listSessions_wf now fs hwf hrd]
    dsimp only
    rw [foldl_delIf_eq]
    refine congrArg Except.ok (congrArg (fun L => { fs with files := L }) ?_)
    refine List.filter_congr (fun e he => ?_)
    rw [delTargets_eq_entryMatches now _ fs hwf he]
  · unfold DeleteExpired
    rw [listSessions_wf now fs hwf hrd]
    dsimp only
    rw [foldl_delIf_eq]
    refine congrArg Except.ok (congrArg (fun L => { fs with files := L }) ?_)
    refine List.filter_congr (fun e he => ?_)
    rw [delTargets_eq_entryMatches now _ fs hwf he]

/-- Record for "alice", valid until second 99999. -/
def c3DataA : SessionData :=
  { id := aId.value, username := str "alice", token := str "tokA",
    expiresAt := 99999, createdAt := 0, lastUsed := 0 }

/-- Record for "bob", already expired at second 0. -/
def c3DataB : SessionData :=
  { id := bId.value, username := str "bob", token := str "tokB",
    expiresAt := -10, createdAt := 0, lastUsed := 0 }

/-- A fault-free well-formed store holding the alice and bob records. -/
def c3FS : FS :=
  { emptyFS with files := [(aId.value, .sessionData c3DataA, 0o600),
      (bId.value, .sessionData c3DataB, 0o600)] }

/-- Claim C3 witness: on the two-record store, `DeleteByUsername "alice"`
returns success and removes exactly the alice record, and
`DeleteExpired` at second 0 returns success and removes exactly the
expired bob record. -/
theorem C3_witness :
    DeleteByUsername 0 c3FS (str "alice") =
      .ok { c3FS with files := c3FS.files.filter (fun e =>
        !(entryMatches (fun s => s.username = str "alice") 0
          c3FS.removeFail e)) } ∧
    DeleteExpired 0 c3FS =
      .ok { c3FS with files := c3FS.files.filter (fun e =>
        !(entryMatches (fun s => s.IsExpired 0) 0 c3FS.removeFail e)) } ∧
    c3FS.files.filter (fun e =>
        !(entryMatches (fun s => s.username = str "alice") 0
          c3FS.removeFail e)) =
      [(bId.value, .sessionData c3DataB, 0o600)] ∧
    c3FS.files.filter (fun e =>
        !(entryMatches (fun s => s.IsExpired 0) 0 c3FS.removeFail e)) =
      [(aId.value, .sessionData c3DataA, 0o600)] := by
  have h := C3_delete_best_effort 0 (str "alice") c3FS
    (by constructor
        · decide
        · decide)
    rfl
  exact ⟨h.1, h.2, by decide, by decide⟩

/-- A record filed under `aId` whose content claims id `bId`. -/
def c3BadData : SessionData :=
  { id := bId.value, username := str "alice", token := str "tok",
    expiresAt := 99, createdAt := 0, lastUsed := 0 }

/-- A store holding only that mis-filed record. -/
def c3BadFS : FS :=
  { emptyFS with files := [(aId.value, .sessionData c3BadData, 0o600)] }

/-- Claim C3 counterexample: the delete loop removes the file named by each
record's *internal* id, so a record filed under a different name
survives `DeleteByUsername` of its own username — the store is
returned unchanged (with success), violating "deletes every stored
record whose username equals name". -/
theorem C3_counterexample :
    DeleteByUsername 0 c3BadFS (str "alice") = .ok c3BadFS ∧
    (aId.value, FileContent.sessionData c3BadData, 0o600) ∈ c3BadFS.files ∧
    c3BadData.username = str "alice" := by
  refine ⟨by decide, by decide, by decide⟩

end AOJ
